import Mathlib

/-!
Shallow embedding of the LLPC shader-stage utility functions
(`llpc/util/llpcUtil.cpp`, namespace `Llpc`) and proofs of the
specification's claims about them.

Machine integers (`unsigned`) are embedded as `Nat`; where an overflow
could matter the value is reduced `% 2^32`.  A function whose C body can
reach `llvm_unreachable` (an assertion failure / undefined behaviour)
is embedded as an `Option`-valued function returning `none` there.
-/

namespace Llpc

/-- Modelled from the spec: the numeric ordinals of the `ShaderStage`
enumeration, declared in a header that is not part of the sample
(`vkgcDefs.h`).  The spec fixes a closed enumeration
{Vertex, TessControl, TessEval, Geometry, Fragment, Compute, CopyShader,
Invalid} in which Vertex..Compute are contiguous (they are positionally
indexed into a six-entry name table, and the identity casts in
`convertToShaderStage`/`convertToExecModel` align them with the SPIR-V
execution-model codes 0..5), CopyShader's ordinal falls outside the
contiguous Vertex..Compute range (it sits at `ShaderStageCount`), and
Invalid is the all-ones `unsigned` sentinel. -/
def ShaderStageVertex : Nat := 0

def ShaderStageTessControl : Nat := 1

def ShaderStageTessEval : Nat := 2

def ShaderStageGeometry : Nat := 3

def ShaderStageFragment : Nat := 4

def ShaderStageCompute : Nat := 5

def ShaderStageCount : Nat := 6

def ShaderStageCopyShader : Nat := ShaderStageCount

def ShaderStageInvalid : Nat := 2 ^ 32 - 1

/-- Modelled from the spec: the SPIR-V execution-model codes used by the
conversion functions.  Vertex..GLCompute are the standard SPIR-V codes
0..5 (the headers `spirv.hpp`/`spirvExt.h` are not part of the sample);
`ExecutionModelCopyShader` is the repository's own distinguished
execution-model code for the synthetic copy shader — the spec requires
only that it is distinct from every standard code (the repository uses
1024). -/
def ExecutionModelVertex : Nat := 0

def ExecutionModelTessellationControl : Nat := 1

def ExecutionModelTessellationEvaluation : Nat := 2

def ExecutionModelGeometry : Nat := 3

def ExecutionModelFragment : Nat := 4

def ExecutionModelGLCompute : Nat := 5

def ExecutionModelCopyShader : Nat := 1024

/-- Modelled from the spec: the `UnlinkedShaderStage` enumeration
(`vkgcDefs.h`, not part of the sample): the closed category set
{VertexProcess, Fragment, Compute} in declaration order, followed by a
count sentinel. -/
def UnlinkedStageVertexProcess : Nat := 0

def UnlinkedStageFragment : Nat := 1

def UnlinkedStageCompute : Nat := 2

def UnlinkedStageCount : Nat := 3

/-- The six-entry positional name table local to `getShaderStageName`. -/
def shaderStageNames : List String :=
  ["vertex", "tessellation control", "tessellation evaluation", "geometry",
   "fragment", "compute"]

/-- Stands for the undefined value an out-of-bounds read of the name
table would produce; `getShaderStageName` is proved never to return it. -/
def oobRead : String := "<out-of-bounds read>"

/-- Embeds `getShaderStageName` (`llpcUtil.cpp:50-70`): `"copy"` for the copy
shader, a positional table lookup below `ShaderStageCount`, `"bad"`
otherwise. -/
def getShaderStageName (shaderStage : Nat) : String :=
  if shaderStage = ShaderStageCopyShader then "copy"
  else if shaderStage < ShaderStageCount then
    (shaderStageNames.get? shaderStage).getD oobRead
  else "bad"

/-- Embeds `convertToShaderStage` (`llpcUtil.cpp:76-93`): the six standard
execution models are cast to the identically-numbered stage, the copy
shader code maps to `ShaderStageCopyShader`, and every other code hits
`llvm_unreachable` (embedded as `none`). -/
def convertToShaderStage (execModel : Nat) : Option Nat :=
  if execModel = ExecutionModelVertex ∨
     execModel = ExecutionModelTessellationControl ∨
     execModel = ExecutionModelTessellationEvaluation ∨
     execModel = ExecutionModelGeometry ∨
     execModel = ExecutionModelFragment ∨
     execModel = ExecutionModelGLCompute then some execModel
  else if execModel = ExecutionModelCopyShader then some ShaderStageCopyShader
  else none

/-- Embeds `convertToExecModel` (`llpcUtil.cpp:99-117`): the six hardware
stages are cast to the identically-numbered execution model, the copy
shader stage maps to `ExecutionModelCopyShader`, and the default case
hits `llvm_unreachable` (embedded as `none`). -/
def convertToExecModel (shaderStage : Nat) : Option Nat :=
  if shaderStage = ShaderStageVertex ∨
     shaderStage = ShaderStageTessControl ∨
     shaderStage = ShaderStageTessEval ∨
     shaderStage = ShaderStageGeometry ∨
     shaderStage = ShaderStageFragment ∨
     shaderStage = ShaderStageCompute then some shaderStage
  else if shaderStage = ShaderStageCopyShader then some ExecutionModelCopyShader
  else none

/-- Embeds `shaderStageToMask` (`llpcUtil.cpp:123-126`): `1 << stage` as a
32-bit `unsigned` (the function also asserts
`stage < ShaderStageCount || stage == ShaderStageCopyShader`; the claims
only quantify over stages satisfying it). -/
def shaderStageToMask (stage : Nat) : Nat := (1 <<< stage) % 2 ^ 32

/-- Modelled from the spec: an element of the shader-info list passed to
`hasDataForUnlinkedShaderType`.  `PipelineShaderInfo` is declared in a
header that is not part of the sample; the spec only uses the stage each
element declares. -/
structure PipelineShaderInfo where
  entryStage : Nat
deriving DecidableEq, Repr

/-- Modelled from the spec: `doesShaderStageExist` is declared in a
header that is not part of the sample.  The spec:
`hasDataForUnlinkedShaderType(VertexProcess, shaderInfos)` returns true
iff at least one of shaderInfos declares stage Vertex — so this helper
returns true iff some element declares the given stage. -/
def doesShaderStageExist (shaderInfo : List PipelineShaderInfo) (stage : Nat) : Bool :=
  shaderInfo.any fun info => info.entryStage = stage

/-- Embeds `hasDataForUnlinkedShaderType` (`llpcUtil.cpp:133-144`). -/
def hasDataForUnlinkedShaderType (ty : Nat) (shaderInfo : List PipelineShaderInfo) : Bool :=
  if ty = UnlinkedStageVertexProcess then doesShaderStageExist shaderInfo ShaderStageVertex
  else if ty = UnlinkedStageFragment then doesShaderStageExist shaderInfo ShaderStageFragment
  else if ty = UnlinkedStageCompute then doesShaderStageExist shaderInfo ShaderStageCompute
  else false

/-- Embeds `getShaderStageMaskForType` (`llpcUtil.cpp:150-164`). -/
def getShaderStageMaskForType (ty : Nat) : Nat :=
  if ty = UnlinkedStageVertexProcess then
    shaderStageToMask ShaderStageVertex |||
    shaderStageToMask ShaderStageGeometry |||
    shaderStageToMask ShaderStageTessControl |||
    shaderStageToMask ShaderStageTessEval
  else if ty = UnlinkedStageFragment then shaderStageToMask ShaderStageFragment
  else if ty = UnlinkedStageCompute then shaderStageToMask ShaderStageCompute
  else 0

/-- The four-entry positional name table local to
`getUnlinkedShaderStageName`. -/
def unlinkedShaderStageNames : List String :=
  ["vertex", "fragment", "compute", "unknown"]

/-- Embeds `getUnlinkedShaderStageName` (`llpcUtil.cpp:170-173`): an unguarded
positional read `names[type]` of the four-entry table; an index past the
table is an out-of-bounds read (embedded as `none`). -/
def getUnlinkedShaderStageName (ty : Nat) : Option String :=
  unlinkedShaderStageNames.get? ty

/-- The execution-model codes that have a defined shader stage. -/
def definedExecModels : List Nat :=
  [ExecutionModelVertex, ExecutionModelTessellationControl,
   ExecutionModelTessellationEvaluation, ExecutionModelGeometry,
   ExecutionModelFragment, ExecutionModelGLCompute, ExecutionModelCopyShader]

/-- The seven shader stages other than `ShaderStageInvalid`. -/
def definedStages : List Nat :=
  [ShaderStageVertex, ShaderStageTessControl, ShaderStageTessEval,
   ShaderStageGeometry, ShaderStageFragment, ShaderStageCompute,
   ShaderStageCopyShader]

/-- C1: for every execution-model code that has a defined shader stage
(Vertex, TessellationControl, TessellationEvaluation, Geometry, Fragment,
GLCompute, CopyShader), `convertToShaderStage` followed by
`convertToExecModel` yields the original code. -/
theorem execModel_stage_roundtrip (x : Nat) (hx : x ∈ definedExecModels) :
    (convertToShaderStage x).bind convertToExecModel = some x := by
  fin_cases hx <;> decide

/-- Witness for C1 at the copy-shader execution-model code. -/
theorem execModel_stage_roundtrip_witness :
    (convertToShaderStage ExecutionModelCopyShader).bind convertToExecModel =
      some ExecutionModelCopyShader :=
  execModel_stage_roundtrip ExecutionModelCopyShader (by decide)

/-- C2: for every shader stage other than Invalid, `convertToExecModel`
followed by `convertToShaderStage` yields the original stage, and
CopyShader maps to a distinguished execution-model code that no other
stage maps to. -/
theorem stage_execModel_roundtrip (s : Nat) (hs : s ∈ definedStages) :
    (convertToExecModel s).bind convertToShaderStage = some s ∧
    (s ≠ ShaderStageCopyShader →
      convertToExecModel s ≠ some ExecutionModelCopyShader) := by
  fin_cases hs <;> exact ⟨by decide, by decide⟩

/-- Witness for C2 at the vertex stage. -/
theorem stage_execModel_roundtrip_witness :
    (convertToExecModel ShaderStageVertex).bind convertToShaderStage =
      some ShaderStageVertex ∧
    (ShaderStageVertex ≠ ShaderStageCopyShader →
      convertToExecModel ShaderStageVertex ≠ some ExecutionModelCopyShader) :=
  stage_execModel_roundtrip ShaderStageVertex (by decide)

/-- C3 counterexample: the two conversion functions are not total — the
execution-model code 6 (SPIR-V Kernel, which has no defined stage) makes
`convertToShaderStage` hit `llvm_unreachable`, and `ShaderStageInvalid`
makes `convertToExecModel` hit `llvm_unreachable`. -/
theorem converters_not_total :
    convertToShaderStage 6 = none ∧ convertToExecModel ShaderStageInvalid = none := by
  constructor
  · decide
  · decide

/-- C3 amended: the mapping functions are pure, `getShaderStageName` is
total (it returns one of the defined name strings for every input, never
failing), and the two conversion functions return a result exactly on
their defined inputs: `convertToShaderStage` on the seven defined
execution-model codes, `convertToExecModel` on the seven non-Invalid
stages; elsewhere they hit `llvm_unreachable`. -/
theorem mapping_functions_domains (x : Nat) :
    getShaderStageName x ∈ "copy" :: "bad" :: shaderStageNames ∧
    ((convertToShaderStage x).isSome ↔ x ∈ definedExecModels) ∧
    ((convertToExecModel x).isSome ↔ x ∈ definedStages) := by
  refine ⟨?_, ?_, ?_⟩
  · unfold getShaderStageName ShaderStageCopyShader ShaderStageCount
    split_ifs with h1 h2
    · simp
    · interval_cases x <;> decide
    · simp
  · unfold convertToShaderStage definedExecModels ExecutionModelVertex
      ExecutionModelTessellationControl ExecutionModelTessellationEvaluation
      ExecutionModelGeometry ExecutionModelFragment ExecutionModelGLCompute
      ExecutionModelCopyShader ShaderStageCopyShader ShaderStageCount
    split_ifs with h1 h2 <;> simp_all <;> tauto
  · unfold convertToExecModel definedStages ShaderStageVertex
      ShaderStageTessControl ShaderStageTessEval ShaderStageGeometry
      ShaderStageFragment ShaderStageCompute ShaderStageCopyShader
      ShaderStageCount
    split_ifs with h1 h2 <;> simp_all <;> tauto

/-- C4: `shaderStageToMask` is the single-bit mask `1 << ordinal`, it is
injective over the seven stages, and the CopyShader mask shares no bit
with the mask of any of Vertex..Compute. -/
theorem shaderStageToMask_single_bit (s t : Nat)
    (hs : s ∈ definedStages) (ht : t ∈ definedStages) :
    shaderStageToMask s = 1 <<< s ∧
    (shaderStageToMask s = shaderStageToMask t → s = t) ∧
    (s ≠ ShaderStageCopyShader →
      shaderStageToMask ShaderStageCopyShader &&& shaderStageToMask s = 0) := by
  fin_cases hs <;> fin_cases ht <;> exact ⟨by decide, by decide, by decide⟩

/-- Witness for C4 at the vertex and fragment stages. -/
theorem shaderStageToMask_single_bit_witness :
    shaderStageToMask ShaderStageVertex = 1 <<< ShaderStageVertex ∧
    (shaderStageToMask ShaderStageVertex = shaderStageToMask ShaderStageFragment →
      ShaderStageVertex = ShaderStageFragment) ∧
    (ShaderStageVertex ≠ ShaderStageCopyShader →
      shaderStageToMask ShaderStageCopyShader &&& shaderStageToMask ShaderStageVertex = 0) :=
  shaderStageToMask_single_bit ShaderStageVertex ShaderStageFragment
    (by decide) (by decide)

/-- C5: `getShaderStageName` returns `"fragment"` for the fragment stage,
`"copy"` for the copy shader, and `"bad"` for every ordinal that is
neither the copy shader nor below `ShaderStageCount`. -/
theorem getShaderStageName_values (s : Nat)
    (h1 : s ≠ ShaderStageCopyShader) (h2 : ¬ s < ShaderStageCount) :
    getShaderStageName ShaderStageFragment = "fragment" ∧
    getShaderStageName ShaderStageCopyShader = "copy" ∧
    getShaderStageName s = "bad" := by
  refine ⟨by decide, by decide, ?_⟩
  unfold getShaderStageName
  rw [if_neg h1, if_neg h2]

/-- Witness for C5 at the invalid ordinal 100. -/
theorem getShaderStageName_values_witness :
    getShaderStageName ShaderStageFragment = "fragment" ∧
    getShaderStageName ShaderStageCopyShader = "copy" ∧
    getShaderStageName 100 = "bad" :=
  getShaderStageName_values 100 (by decide) (by decide)

/-- C6: `hasDataForUnlinkedShaderType` on the VertexProcess category
returns true iff at least one element of the shader-info list declares
stage Vertex; in particular it is false on the empty list. -/
theorem hasData_vertexProcess_iff (shaderInfo : List PipelineShaderInfo) :
    (hasDataForUnlinkedShaderType UnlinkedStageVertexProcess shaderInfo = true ↔
      ∃ info ∈ shaderInfo, info.entryStage = ShaderStageVertex) ∧
    hasDataForUnlinkedShaderType UnlinkedStageVertexProcess [] = false := by
  refine ⟨?_, by decide⟩
  simp [hasDataForUnlinkedShaderType, doesShaderStageExist,
    UnlinkedStageVertexProcess, List.any_eq_true]

/-- C7: `getShaderStageMaskForType` maps each unlinked-stage category to
the union of the stage masks of exactly the stages in that category. -/
theorem getShaderStageMaskForType_values :
    getShaderStageMaskForType UnlinkedStageVertexProcess =
      (shaderStageToMask ShaderStageVertex ||| shaderStageToMask ShaderStageTessControl |||
       shaderStageToMask ShaderStageTessEval ||| shaderStageToMask ShaderStageGeometry) ∧
    getShaderStageMaskForType UnlinkedStageFragment = shaderStageToMask ShaderStageFragment ∧
    getShaderStageMaskForType UnlinkedStageCompute = shaderStageToMask ShaderStageCompute := by
  refine ⟨by decide, by decide, by decide⟩

/-- C8: `getShaderStageName` handles the copy shader and out-of-range
ordinals before the positional lookup: the name table has exactly
`ShaderStageCount` entries, any ordinal below `ShaderStageCount` is a
defined index into it, and no input makes the function perform an
out-of-bounds table read. -/
theorem getShaderStageName_no_oob (s : Nat) (h : s < ShaderStageCount) :
    shaderStageNames.length = ShaderStageCount ∧
    (shaderStageNames.get? s).isSome ∧
    ∀ t : Nat, getShaderStageName t ≠ oobRead := by
  refine ⟨by decide, ?_, ?_⟩
  · unfold ShaderStageCount at h
    interval_cases s <;> decide
  · intro t
    unfold getShaderStageName ShaderStageCopyShader ShaderStageCount
    split_ifs with h1 h2
    · decide
    · interval_cases t <;> decide
    · decide

/-- Witness for C8 at the geometry stage ordinal. -/
theorem getShaderStageName_no_oob_witness :
    shaderStageNames.length = ShaderStageCount ∧
    (shaderStageNames.get? ShaderStageGeometry).isSome ∧
    ∀ t : Nat, getShaderStageName t ≠ oobRead :=
  getShaderStageName_no_oob ShaderStageGeometry (by decide)

/-- C9: for every unlinked-stage value outside {VertexProcess, Fragment,
Compute}, the utilities behave as an empty category:
`hasDataForUnlinkedShaderType` is false for every shader-info list and
`getShaderStageMaskForType` is the empty mask. -/
theorem unlinked_default_is_empty (ty : Nat)
    (h0 : ty ≠ UnlinkedStageVertexProcess) (h1 : ty ≠ UnlinkedStageFragment)
    (h2 : ty ≠ UnlinkedStageCompute) :
    (∀ shaderInfo : List PipelineShaderInfo,
      hasDataForUnlinkedShaderType ty shaderInfo = false) ∧
    getShaderStageMaskForType ty = 0 := by
  constructor
  · intro shaderInfo
    unfold hasDataForUnlinkedShaderType
    rw [if_neg h0, if_neg h1, if_neg h2]
  · unfold getShaderStageMaskForType
    rw [if_neg h0, if_neg h1, if_neg h2]

/-- Witness for C9 at the count sentinel value. -/
theorem unlinked_default_is_empty_witness :
    (∀ shaderInfo : List PipelineShaderInfo,
      hasDataForUnlinkedShaderType UnlinkedStageCount shaderInfo = false) ∧
    getShaderStageMaskForType UnlinkedStageCount = 0 :=
  unlinked_default_is_empty UnlinkedStageCount (by decide) (by decide) (by decide)

/-- C10: `getUnlinkedShaderStageName` positionally indexes the four-entry
table: `"vertex"` for VertexProcess, `"fragment"` for Fragment,
`"compute"` for Compute, `"unknown"` for the count sentinel; any larger
input reads past the table (no guard exists); and the VertexProcess name
coincides with the stage name of Vertex. -/
theorem getUnlinkedShaderStageName_spec (ty : Nat) (h : UnlinkedStageCount < ty) :
    getUnlinkedShaderStageName UnlinkedStageVertexProcess = some "vertex" ∧
    getUnlinkedShaderStageName UnlinkedStageFragment = some "fragment" ∧
    getUnlinkedShaderStageName UnlinkedStageCompute = some "compute" ∧
    getUnlinkedShaderStageName UnlinkedStageCount = some "unknown" ∧
    getUnlinkedShaderStageName ty = none ∧
    getUnlinkedShaderStageName UnlinkedStageVertexProcess =
      some (getShaderStageName ShaderStageVertex) := by
  refine ⟨by decide, by decide, by decide, by decide, ?_, by decide⟩
  unfold getUnlinkedShaderStageName
  rw [List.get?_eq_none]
  unfold UnlinkedStageCount at h
  unfold unlinkedShaderStageNames
  simpa using h

/-- Witness for C10 at the out-of-range value 7. -/
theorem getUnlinkedShaderStageName_spec_witness :
    getUnlinkedShaderStageName UnlinkedStageVertexProcess = some "vertex" ∧
    getUnlinkedShaderStageName UnlinkedStageFragment = some "fragment" ∧
    getUnlinkedShaderStageName UnlinkedStageCompute = some "compute" ∧
    getUnlinkedShaderStageName UnlinkedStageCount = some "unknown" ∧
    getUnlinkedShaderStageName 7 = none ∧
    getUnlinkedShaderStageName UnlinkedStageVertexProcess =
      some (getShaderStageName ShaderStageVertex) :=
  getUnlinkedShaderStageName_spec 7 (by decide)

end Llpc
